import Mathlib

/-!
Shallow embedding of the `rust-bdd-techniques` repository (three modules:
`trait_abstraction.rs`, `centralized_dependencies.rs`, `function_as_service.rs`)
and proofs of the specification claims about it.

Modelling conventions:
* A Rust trait becomes a Lean typeclass; a marker trait becomes an empty class.
* The only observable effect in the repository is a `println!` line, so an
  effectful trait operation is modelled as a function returning the emitted
  `String`.
* `Arc<T>` is modelled as the stored value paired with its allocation address
  (a `Nat` chosen by the allocator at `Arc::new` time); `Arc::clone` bumps the
  reference count and returns the same pointer, hence it is the identity.
* A shared reference `&T` passed to a consumer is modelled as the referenced
  value; reference identity, where a claim is about it, is tracked through the
  allocation address of the backing `Arc`.
* `i32` is modelled as `Int` (the only arithmetic on it is equality with 42,
  so wrap-around is irrelevant).
-/

namespace TraitAbstraction

/-- Marker trait `TraitOne` from `trait_abstraction.rs` (no operations). -/
class TraitOne (α : Type) : Type where

/-- Marker trait `TraitTwo: Default` from `trait_abstraction.rs`: requires
default-constructibility of implementers, supplies no operations of its own. -/
class TraitTwo (α : Type) extends Inhabited α : Type where

/-- Implementation `FooOne` of `TraitOne`. -/
structure FooOne where

/-- Implementation `FooTwo` of `TraitTwo`; `#[derive(Default)]`. -/
structure FooTwo where

instance : TraitOne FooOne where

instance : TraitTwo FooTwo where
  default := FooTwo.mk

/-- Alternative (test) implementation `BarOne` of `TraitOne`. -/
structure BarOne where

/-- Alternative (test) implementation `BarTwo` of `TraitTwo`; `#[derive(Default)]`. -/
structure BarTwo where

instance : TraitOne BarOne where

instance : TraitTwo BarTwo where
  default := BarTwo.mk

/-- The composite value `MyStruct<One, Two = FooTwo>` from `trait_abstraction.rs`:
one slot per required capability, generic over the slot types, bounded by the
contracts. -/
structure MyStruct (One : Type) (Two : Type := FooTwo) [TraitOne One] [TraitTwo Two] where
  one : One
  two : Two

/-- Constructor `MyStruct::new(one)`: fixes the `Two` slot to the default
concrete type `FooTwo`, built with `FooTwo::default()`. -/
def MyStruct.new {One : Type} [TraitOne One] (one : One) : MyStruct One FooTwo :=
  { one := one, two := (default : FooTwo) }

/-- Constructor `MyStruct::with_two(one, two)`: every slot supplied explicitly. -/
def MyStruct.with_two {One Two : Type} [TraitOne One] [TraitTwo Two]
    (one : One) (two : Two) : MyStruct One Two :=
  { one := one, two := two }

/-- The handle trait `MyStructHandle`: one associated type per capability slot,
with the same bounds as the structure, and a single accessor borrowing the
concrete composite value. -/
class MyStructHandle (M : Type) : Type 1 where
  OneImpl : Type
  TwoImpl : Type
  [oneInst : TraitOne OneImpl]
  [twoInst : TraitTwo TwoImpl]
  get : M → @MyStruct OneImpl TwoImpl oneInst twoInst

attribute [instance] MyStructHandle.oneInst MyStructHandle.twoInst

/-- The blanket conformance `impl<One, Two> MyStructHandle for MyStruct<One, Two>`:
one generic implementation covering every pair of slot types; `get` returns
`self` (already borrowed). -/
instance instMyStructHandle {One Two : Type} [TraitOne One] [TraitTwo Two] :
    MyStructHandle (MyStruct One Two) where
  OneImpl := One
  TwoImpl := Two
  get m := m

/-- The bound-propagating consumer `use_my_struct` (empty body, returns unit). -/
def use_my_struct {One Two : Type} [TraitOne One] [TraitTwo Two]
    (my_struct : MyStruct One Two) : Unit :=
  ()

/-- Consumer `use_my_struct_with_handle_again`: takes any handle, borrows the
composite value, does nothing further. -/
def use_my_struct_with_handle_again {M : Type} [MyStructHandle M] (handle : M) : Unit :=
  let my_struct := MyStructHandle.get handle
  ()

/-- Consumer `use_my_struct_with_handle`: takes any handle, recovers the
composite value via `get`, and passes it on to another handle-bound function
(possible because the composite value itself satisfies the handle trait). -/
def use_my_struct_with_handle {M : Type} [MyStructHandle M] (handle : M) : Unit :=
  let my_struct := MyStructHandle.get handle
  use_my_struct_with_handle_again my_struct

end TraitAbstraction

namespace CentralizedDeps

/-- Model of `Arc<T>`: the stored value together with the address of the
allocation made by `Arc::new` (the address is chosen by the allocator, so it
appears as a parameter of `Arc.new`). -/
structure Arc (α : Type) where
  addr : Nat
  val : α

/-- Allocation `Arc::new(x)` at allocator-chosen address `addr`. -/
def Arc.new {α : Type} (addr : Nat) (x : α) : Arc α :=
  { addr := addr, val := x }

/-- Pointer duplication `Arc::clone`: bumps the reference count and returns a
handle to the same allocation (same address, same stored value). -/
def Arc.clone {α : Type} (a : Arc α) : Arc α :=
  a

/-- Trait `Foo` from `centralized_dependencies.rs`; `foo(&self)` prints a line,
modelled as the returned string. -/
class Foo (F : Type) : Type where
  foo : F → String

/-- Trait `Bar` from `centralized_dependencies.rs`; `bar(&self)` prints a line,
modelled as the returned string. -/
class Bar (B : Type) : Type where
  bar : B → String

/-- Implementation `FooImplA`: prints `foo A`. -/
structure FooImplA where

/-- Implementation `FooImplB`: prints `foo B`. -/
structure FooImplB where

instance : Foo FooImplA where
  foo _ := "foo A"

instance : Foo FooImplB where
  foo _ := "foo B"

/-- Implementation `BarImplA`: prints `bar A`. -/
structure BarImplA where

/-- Implementation `BarImplB`: prints `bar B`. -/
structure BarImplB where

instance : Bar BarImplA where
  bar _ := "bar A"

instance : Bar BarImplB where
  bar _ := "bar B"

/-- The accessor trait `Deps`: one associated type per dependency, each bounded
by its contract, and one getter per dependency returning a read-only reference
to the stored implementation (modelled as the referenced value). -/
class Deps (D : Type) : Type 1 where
  FooImpl : Type
  BarImpl : Type
  [fooInst : Foo FooImpl]
  [barInst : Bar BarImpl]
  foo : D → FooImpl
  bar : D → BarImpl

attribute [instance] Deps.fooInst Deps.barInst

/-- The container `DependencyContainer<F, B>`: one `Arc`-wrapped slot per
dependency, bounded by the contracts. -/
structure DependencyContainer (F B : Type) [Foo F] [Bar B] where
  foo : Arc F
  bar : Arc B

/-- The `#[derive(Clone)]` on `DependencyContainer`: clones each field, i.e.
duplicates each `Arc` pointer without touching the pointed-to values. -/
def DependencyContainer.clone {F B : Type} [Foo F] [Bar B]
    (c : DependencyContainer F B) : DependencyContainer F B :=
  { foo := c.foo.clone, bar := c.bar.clone }

/-- The blanket conformance `impl<F, B> Deps for DependencyContainer<F, B>`:
associated types are the slot types of the container itself; the getters return
`&self.foo` and `&self.bar` (references into the `Arc` allocations). -/
instance instDepsDependencyContainer {F B : Type} [Foo F] [Bar B] :
    Deps (DependencyContainer F B) where
  FooImpl := F
  BarImpl := B
  foo c := c.foo.val
  bar c := c.bar.val

/-- The dependent structure `MyStruct` of `centralized_dependencies.rs` (a unit
struct; bounds live on its methods, not on the structure). -/
structure MyStruct where

/-- Method `MyStruct::do_foo`: bounded only on `Foo`, calls `foo.foo()`. -/
def MyStruct.do_foo {F : Type} [Foo F] (s : MyStruct) (foo : F) : String :=
  Foo.foo foo

/-- Method `MyStruct::do_bar`: bounded only on `Bar`, calls `bar.bar()`. -/
def MyStruct.do_bar {B : Type} [Bar B] (s : MyStruct) (bar : B) : String :=
  Bar.bar bar

/-- Consumer `use_my_struct_with_deps`: bound on the whole `Deps` container,
hands the specific dependency to the method via the getter. -/
def use_my_struct_with_deps {D : Type} [Deps D] (my_struct : MyStruct) (deps : D) : String :=
  my_struct.do_foo (Deps.foo deps)

/-- Consumer `use_my_struct_with_foo`: bound on the single contract `Foo` only. -/
def use_my_struct_with_foo {F : Type} [Foo F] (my_struct : MyStruct) (foo : F) : String :=
  my_struct.do_foo foo

/-- The operations the indirection layer offers on a container after
construction: `clone`, and the getters `foo` and `bar`. -/
inductive DepsOp : Type where
  | cloneOp : DepsOp
  | fooOp : DepsOp
  | barOp : DepsOp

/-- State of the container after one operation. `clone` produces the cloned
container; the getters take `&self` (a shared borrow with no interior
mutability in the container), so the receiver is unchanged by them. -/
def applyDepsOp {F B : Type} [Foo F] [Bar B]
    (c : DependencyContainer F B) : DepsOp → DependencyContainer F B
  | DepsOp.cloneOp => c.clone
  | DepsOp.fooOp => c
  | DepsOp.barOp => c

end CentralizedDeps

namespace FunctionAsService

/-- The wrapped external function `is_meaning_of_life` from
`function_as_service.rs`: sleeps 500 ms (no semantic content), then returns
whether `n == 42`. -/
def is_meaning_of_life (n : Int) : Bool :=
  n == 42

/-- Trait `LifeService`: runs the check. -/
class LifeService (L : Type) : Type where
  check : L → Int → Bool

/-- Production implementor `Life`. -/
structure Life where

/-- Production conformance: `check` forwards to `is_meaning_of_life` unchanged. -/
instance : LifeService Life where
  check _ n := is_meaning_of_life n

/-- Entry point `run_meaning_of_life`: uses only the trait, maps the boolean
outcome to a result string. -/
def run_meaning_of_life {L : Type} [LifeService L] (life : L) (n : Int) : String :=
  if LifeService.check life n then
    "yay!"
  else
    ":frown:"

/-- Test double `StubLife` (from the test module of `function_as_service.rs`):
holds the canned answer; `#[derive(Default)]` gives `meaning = false`. -/
structure StubLife where
  meaning : Bool

/-- The `#[derive(Default)]` value of `StubLife`. -/
def StubLife.default : StubLife :=
  { meaning := false }

/-- Builder `StubLife::always_correct`: fixes the canned answer to `true`. -/
def StubLife.always_correct (s : StubLife) : StubLife :=
  { s with meaning := true }

/-- Builder `StubLife::always_wrong`: fixes the canned answer to `false`. -/
def StubLife.always_wrong (s : StubLife) : StubLife :=
  { s with meaning := false }

/-- Stub conformance: `check` ignores `n` and returns the canned answer; it
never calls `is_meaning_of_life`. -/
instance : LifeService StubLife where
  check s _ := s.meaning

end FunctionAsService

namespace CentralizedDeps

/-- Helper: every single indirection-layer operation leaves the slots of the
container untouched (`clone` copies the `Arc` pointers, the getters take a shared
borrow). -/
theorem applyDepsOp_eq_self {F B : Type} [Foo F] [Bar B]
    (c : DependencyContainer F B) (op : DepsOp) : applyDepsOp c op = c := by
  cases op <;> rfl

/-- Helper: a whole sequence of indirection-layer operations leaves the
slots of the container untouched. -/
theorem foldl_applyDepsOp_eq_self {F B : Type} [Foo F] [Bar B]
    (ops : List DepsOp) (c : DependencyContainer F B) :
    ops.foldl applyDepsOp c = c := by
  induction ops generalizing c with
  | nil => rfl
  | cons op ops ih => simpa [List.foldl, applyDepsOp_eq_self] using ih c

end CentralizedDeps

/-- C1: for every pair of slot types, the composite values satisfy their handle
abstractions through the single generic conformances, whose associated types
are exactly the slot types: `MyStruct One Two` satisfies `MyStructHandle` with
`OneImpl = One` and `TwoImpl = Two`, and `DependencyContainer F B` satisfies
`Deps` with `FooImpl = F` and `BarImpl = B`. The generic instances applied here
at arbitrary slot types are the proof that no per-combination conformance is
needed. -/
theorem blanket_conformance_covers_all_combinations
    (One Two : Type) [TraitAbstraction.TraitOne One] [TraitAbstraction.TraitTwo Two]
    (F B : Type) [CentralizedDeps.Foo F] [CentralizedDeps.Bar B] :
    (@TraitAbstraction.MyStructHandle.OneImpl (TraitAbstraction.MyStruct One Two)
        TraitAbstraction.instMyStructHandle = One)
    ∧ (@TraitAbstraction.MyStructHandle.TwoImpl (TraitAbstraction.MyStruct One Two)
        TraitAbstraction.instMyStructHandle = Two)
    ∧ (@CentralizedDeps.Deps.FooImpl (CentralizedDeps.DependencyContainer F B)
        CentralizedDeps.instDepsDependencyContainer = F)
    ∧ (@CentralizedDeps.Deps.BarImpl (CentralizedDeps.DependencyContainer F B)
        CentralizedDeps.instDepsDependencyContainer = B) :=
  ⟨rfl, rfl, rfl, rfl⟩

namespace CentralizedDeps

/-- C2: cloning a container built from instances `f` and `b` is a shallow copy:
the clone is the very same pair of `Arc` pointers (same allocation addresses,
same stored values, so nothing is re-constructed or deep-copied), and each
accessor on the clone returns the same underlying instance as on the
original. -/
theorem clone_shares_same_instances
    (F B : Type) [Foo F] [Bar B] (f : F) (b : B) (af ab : Nat) :
    let c : DependencyContainer F B := { foo := Arc.new af f, bar := Arc.new ab b }
    c.clone = c
    ∧ c.clone.foo.addr = c.foo.addr
    ∧ c.clone.bar.addr = c.bar.addr
    ∧ Deps.foo c.clone = Deps.foo c
    ∧ Deps.bar c.clone = Deps.bar c :=
  ⟨rfl, rfl, rfl, rfl, rfl⟩

/-- C3: on a container built from instances `f` and `b`, the accessor `foo`
returns a reference to exactly the stored `f` (the value is `f`, at the
allocation `Arc::new` made for it) and `bar` returns exactly the stored `b`;
an operation invoked through the returned reference behaves identically to
invoking it on the originally supplied instance. -/
theorem accessors_return_stored_instances
    (F B : Type) [Foo F] [Bar B] (f : F) (b : B) (af ab : Nat) :
    let c : DependencyContainer F B := { foo := Arc.new af f, bar := Arc.new ab b }
    Deps.foo c = f
    ∧ Deps.bar c = b
    ∧ c.foo.addr = af
    ∧ c.bar.addr = ab
    ∧ Foo.foo (Deps.foo c) = Foo.foo f
    ∧ Bar.bar (Deps.bar c) = Bar.bar b :=
  ⟨rfl, rfl, rfl, rfl, rfl, rfl⟩

/-- C4: the handle-bound consumer path equals the narrow-bound consumer path:
for every `Deps`-satisfying value `d`, `use_my_struct_with_deps s d` performs
exactly what `use_my_struct_with_foo s (d.foo())` performs. -/
theorem handle_bound_path_eq_narrow_bound_path
    (D : Type) [Deps D] (s : MyStruct) (d : D) :
    use_my_struct_with_deps s d = use_my_struct_with_foo s (Deps.foo d) :=
  rfl

/-- C7: assembling a container with `FooImplA` in the `Foo` slot and `BarImplB`
in the `Bar` slot, the narrow `Foo` consumer produces the effect of `FooImplA`
(the output `foo A`, which is not the effect of `FooImplB` nor either `Bar`
effect), and the narrow `Bar` consumer produces the effect of `BarImplB`
(the output `bar B`, not that of `BarImplA`). -/
theorem assembled_container_narrow_consumer_effects :
    let c : DependencyContainer FooImplA BarImplB :=
      { foo := Arc.new 0 FooImplA.mk, bar := Arc.new 1 BarImplB.mk }
    let s : MyStruct := MyStruct.mk
    s.do_foo (Deps.foo c) = "foo A"
    ∧ s.do_foo (Deps.foo c) ≠ Foo.foo FooImplB.mk
    ∧ s.do_foo (Deps.foo c) ≠ Bar.bar BarImplA.mk
    ∧ s.do_foo (Deps.foo c) ≠ Bar.bar BarImplB.mk
    ∧ s.do_bar (Deps.bar c) = "bar B"
    ∧ s.do_bar (Deps.bar c) ≠ Bar.bar BarImplA.mk := by
  refine ⟨rfl, ?_, ?_, ?_, rfl, ?_⟩ <;> decide

end CentralizedDeps

namespace TraitAbstraction

/-- C5: the convenience constructor `MyStruct::new(one)` produces exactly the
value `MyStruct::with_two(one, FooTwo::default())`; the defaulted slot holds
the default implementation `FooTwo`, both results satisfy the handle trait
through the same generic conformance, and the accessor of the handle on the value
built via `new` exposes the default implementation in the `Two` slot. -/
theorem new_equals_with_two_default
    (One : Type) [TraitOne One] (one : One) :
    MyStruct.new one = MyStruct.with_two one (default : FooTwo)
    ∧ MyStructHandle.get (MyStruct.new one) = MyStruct.new one
    ∧ MyStructHandle.get (MyStruct.with_two one (default : FooTwo)) = MyStruct.new one
    ∧ (MyStructHandle.get (MyStruct.new one)).two = FooTwo.mk :=
  ⟨rfl, rfl, rfl, rfl⟩

end TraitAbstraction

/-- C6: after construction, every sequence of indirection-layer operations
(`clone`, the getters `foo` and `bar`) leaves both slots of a
`DependencyContainer` holding the same implementation instances, and the
the `get` of the handle on a `MyStruct` returns it with both slot fields unchanged: no
operation reassigns a slot. -/
theorem indirection_layer_never_mutates_slots
    (F B : Type) [CentralizedDeps.Foo F] [CentralizedDeps.Bar B]
    (ops : List CentralizedDeps.DepsOp) (c : CentralizedDeps.DependencyContainer F B)
    (One Two : Type) [TraitAbstraction.TraitOne One] [TraitAbstraction.TraitTwo Two]
    (m : TraitAbstraction.MyStruct One Two) :
    (ops.foldl CentralizedDeps.applyDepsOp c).foo = c.foo
    ∧ (ops.foldl CentralizedDeps.applyDepsOp c).bar = c.bar
    ∧ TraitAbstraction.MyStructHandle.get m = m
    ∧ (TraitAbstraction.MyStructHandle.get m).one = m.one
    ∧ (TraitAbstraction.MyStructHandle.get m).two = m.two := by
  refine ⟨?_, ?_, rfl, rfl, rfl⟩ <;>
    rw [CentralizedDeps.foldl_applyDepsOp_eq_self]

namespace FunctionAsService

/-- C8: with the test double fixed to `false` substituted for the real
service, `run_meaning_of_life` returns `:frown:` for every input `n`; the
check of the stub is the constant `false` regardless of `n`, so the result is
determined entirely by the test double; in particular at `n = 42`, where the
real external check `is_meaning_of_life` returns `true`, the result is still
`:frown:`, so the value of the real check has no influence on this path. -/
theorem stub_always_wrong_forces_frown (n : Int) :
    run_meaning_of_life (StubLife.default.always_wrong) n = ":frown:"
    ∧ LifeService.check (StubLife.default.always_wrong) n = false
    ∧ is_meaning_of_life 42 = true
    ∧ run_meaning_of_life (StubLife.default.always_wrong) 42 = ":frown:" :=
  ⟨rfl, rfl, rfl, rfl⟩

/-- C9: for every service `life` and input `n`, `run_meaning_of_life life n`
is `yay!` when `life.check n` is true and `:frown:` when it is false; these
are the only two possible results, and `n` influences the result only through
the single call `life.check n`: inputs on which the check agrees produce the
same result. -/
theorem run_meaning_of_life_determined_by_check
    (L : Type) [LifeService L] (life : L) (n m : Int)
    (h : LifeService.check life n = LifeService.check life m) :
    run_meaning_of_life life n
      = (if LifeService.check life n then "yay!" else ":frown:")
    ∧ (run_meaning_of_life life n = "yay!" ∨ run_meaning_of_life life n = ":frown:")
    ∧ run_meaning_of_life life n = run_meaning_of_life life m := by
  refine ⟨rfl, ?_, ?_⟩
  · cases hc : LifeService.check life n
    · exact Or.inr (by simp [run_meaning_of_life, hc])
    · exact Or.inl (by simp [run_meaning_of_life, hc])
  · simp [run_meaning_of_life, h]

/-- Witness for C9 at the concrete stub service and inputs 0 and 1. -/
theorem run_meaning_of_life_determined_by_check_witness :
    run_meaning_of_life (StubLife.mk false) 0
      = (if LifeService.check (StubLife.mk false) 0 then "yay!" else ":frown:")
    ∧ (run_meaning_of_life (StubLife.mk false) 0 = "yay!"
        ∨ run_meaning_of_life (StubLife.mk false) 0 = ":frown:")
    ∧ run_meaning_of_life (StubLife.mk false) 0
        = run_meaning_of_life (StubLife.mk false) 1 :=
  run_meaning_of_life_determined_by_check StubLife (StubLife.mk false) 0 1 rfl

/-- C10: the wrapped external check is not always-true: `is_meaning_of_life n`
is the boolean truth value of `n = 42` (so it is `false` at, for instance,
`n = 41`), and the production implementation `Life` forwards `check` to it
unchanged. -/
theorem life_check_equals_external_check (n : Int) :
    is_meaning_of_life n = decide (n = 42)
    ∧ LifeService.check Life.mk n = is_meaning_of_life n
    ∧ is_meaning_of_life 42 = true
    ∧ is_meaning_of_life 41 = false :=
  ⟨rfl, rfl, rfl, rfl⟩

end FunctionAsService
